import Mathlib

/-!
Shallow embedding of the grounded-locomotion and ground-detection subsystem
of the `rfnew` repository (the `Player` class of the five-ray revision,
`src/unnamed/part_001`, adopted by the specification as the authoritative
implementation; the single-ray revision in `src/src/entities/Player.js` is
superseded).

Modelling choices:
  * scalars are `ℚ` (the JS numbers, ignoring floating-point rounding);
  * a mesh's geometry is abstracted, for downward rays only, as the list of
    y-coordinates at which the vertical line through a given (x, z) meets the
    mesh (`surfaceYs`); `scene.pickWithRay` for a downward ray becomes the
    closest such crossing below the origin and within the ray length;
  * mesh object identity (`mesh !== this.mesh`, `worldMeshes.includes(mesh)`)
    is modelled by a numeric `id`, assumed unique per mesh;
  * the engine primitive `mesh.moveWithCollisions(v)` is an external
    collaborator and is abstracted as a parameter
    `mover : position → displacement → new position`;
  * `BABYLON.Vector3.normalize` divides by the (irrational, in general)
    euclidean length; it is embedded by passing the length as an explicit
    rational argument, constrained in the theorems by
    `len > 0 ∧ len ^ 2 = squared norm`;
  * configuration values read through `this.config.get(...)` are fields of a
    `Config` record.
-/

namespace RFNew

/-- A world-space vector / point (`BABYLON.Vector3`). -/
structure V3 where
  x : ℚ
  y : ℚ
  z : ℚ
deriving DecidableEq

/-- A scene mesh, reduced to the data the locomotion core reads:
identity (`id`), `name`, the `checkCollisions` flag, and its geometry as seen
by vertical downward rays (`surfaceYs x z` = the y-coordinates where the
vertical line through `(x, z)` crosses the mesh). -/
structure Mesh where
  id : Nat
  name : String
  checkCollisions : Bool
  surfaceYs : ℚ → ℚ → List ℚ

/-- A ray-pick result (`scene.pickWithRay` hit info): the mesh hit, the
distance along the ray and the picked point. -/
structure Hit where
  mesh : Mesh
  distance : ℚ
  pointX : ℚ
  pointY : ℚ
  pointZ : ℚ

/-- All candidate hits of a downward ray cast from `(ox, oy, oz)` with
maximal length `len` against the meshes of `scene` accepted by `pred`:
one candidate per surface crossing at or below the origin and within reach. -/
def rayCandidates (scene : List Mesh) (pred : Mesh → Bool)
    (ox oy oz len : ℚ) : List Hit :=
  (scene.filter pred).flatMap fun m =>
    (m.surfaceYs ox oz).filterMap fun y =>
      if y ≤ oy ∧ oy - y ≤ len then
        some { mesh := m, distance := oy - y, pointX := ox, pointY := y, pointZ := oz }
      else none

/-- Fold selecting the hit of strictly smallest distance, earlier entries
winning ties (the JS loops compare with `hit.distance < closestDistance`). -/
def pickBest : Option Hit → List Hit → Option Hit
  | best, [] => best
  | none, h :: rest => pickBest (some h) rest
  | some b, h :: rest =>
      pickBest (if h.distance < b.distance then some h else some b) rest

/-- `scene.pickWithRay(ray, predicate)` for a downward ray: the closest
accepted surface crossing, `none` when nothing is hit. -/
def pickWithRay (scene : List Mesh) (pred : Mesh → Bool)
    (ox oy oz len : ℚ) : Option Hit :=
  pickBest none (rayCandidates scene pred ox oy oz len)

/-- The configuration scalars the `Player` reads from the `ConfigManager`. -/
structure Config where
  speed : ℚ
  jumpForce : ℚ
  gravity : ℚ
  groundTolerance : ℚ
  smoothingFactor : ℚ

/-- The per-`Player` constants: the world-scale factor given at construction
(the game constructs the player with `scaleFactor = 10`), the identity of the
player's own mesh, and the configuration. -/
structure Player where
  scaleFactor : ℚ
  playerId : Nat
  cfg : Config

/-- `this.playerSpeed = this.config.get('player.speed') * scaleFactor`. -/
def playerSpeed (p : Player) : ℚ := p.cfg.speed * p.scaleFactor

/-- `this.jumpForce = this.config.get('player.jumpForce') * scaleFactor`. -/
def jumpForce (p : Player) : ℚ := p.cfg.jumpForce * p.scaleFactor

/-- `this.gravity = this.config.get('physics.gravity') * scaleFactor`. -/
def gravity (p : Player) : ℚ := p.cfg.gravity * p.scaleFactor

/-- `this.mesh.ellipsoid.x = 0.0567 * this.scaleFactor` (createPlayerMesh). -/
def ellipsoidX (p : Player) : ℚ := 0.0567 * p.scaleFactor

/-- `this.mesh.ellipsoid.y = 0.06804 * this.scaleFactor` (createPlayerMesh). -/
def ellipsoidY (p : Player) : ℚ := 0.06804 * p.scaleFactor

/-- `this.mesh.ellipsoid.z = 0.0567 * this.scaleFactor` (createPlayerMesh). -/
def ellipsoidZ (p : Player) : ℚ := 0.0567 * p.scaleFactor

/-- The mutable per-frame state of the player: `mesh.position` (the `Player`'s
`position` field is a copy of it after each frame), `verticalVelocity`,
`isGrounded`, `isMoving` and the mesh's `checkCollisions` flag. -/
structure PState where
  pos : V3
  verticalVelocity : ℚ
  isGrounded : Bool
  isMoving : Bool
  checkCollisions : Bool
deriving DecidableEq

/-- The per-frame key states the `Player` reads from the input map through the
configured key bindings. -/
structure Input where
  forward : Bool
  backward : Bool
  left : Bool
  right : Bool
  jump : Bool
  crouch : Bool
  run : Bool
deriving DecidableEq

/-- The ray filter predicate of `findGround`:
with a non-empty world-mesh list,
`worldMeshes.includes(mesh) && mesh.checkCollisions && mesh !== this.mesh`;
with an absent or empty list,
`mesh.checkCollisions && mesh !== this.mesh && mesh.name !== 'skyBox'`. -/
def findGroundPred (p : Player) (worldIds : List Nat) (m : Mesh) : Bool :=
  if worldIds ≠ [] then
    worldIds.contains m.id && m.checkCollisions && m.id ≠ p.playerId
  else
    m.checkCollisions && m.id ≠ p.playerId && m.name ≠ "skyBox"

/-- The five ray offsets of `findGround`: the central ray and four rays at
`(±0.05 * scaleFactor, ±0.05 * scaleFactor)` in (x, z). -/
def groundRayOffsets (p : Player) : List (ℚ × ℚ) :=
  [ (0, 0),
    (0.05 * p.scaleFactor, 0.05 * p.scaleFactor),
    (-(0.05 * p.scaleFactor), 0.05 * p.scaleFactor),
    (0.05 * p.scaleFactor, -(0.05 * p.scaleFactor)),
    (-(0.05 * p.scaleFactor), -(0.05 * p.scaleFactor)) ]

/-- The per-frame ground-probe ray length: the literal `20` in `findGround`
(`new BABYLON.Ray(rayOrigin, down, 20)`), not scaled by `scaleFactor`. -/
def groundRayLength : ℚ := 20

/-- One of the five rays of `findGround`: origin
`mesh.position + offset - (0, ellipsoid.y, 0)`, direction down, length 20. -/
def castGroundRay (p : Player) (scene : List Mesh) (worldIds : List Nat)
    (st : PState) (off : ℚ × ℚ) : Option Hit :=
  pickWithRay scene (findGroundPred p worldIds)
    (st.pos.x + off.1) (st.pos.y - ellipsoidY p) (st.pos.z + off.2)
    groundRayLength

/-- `Player.findGround(worldMeshes)`: casts the five downward rays and keeps
the hit of smallest distance (`hit.distance < closestDistance`); the JS
`bestHit || { hit: false }` becomes `Option`. -/
def findGround (p : Player) (scene : List Mesh) (worldIds : List Nat)
    (st : PState) : Option Hit :=
  pickBest none ((groundRayOffsets p).filterMap (castGroundRay p scene worldIds st))

/-- `BABYLON.Scalar.Lerp(start, end, amount) = start + (end - start) * amount`. -/
def lerp (a b amount : ℚ) : ℚ := a + (b - a) * amount

/-- The ground-resolution block at the head of `Player.updateNormalMode`
(the check runs on the pre-movement position): on a hit with
`groundDistance <= tolerance && verticalVelocity <= 0`, set `isGrounded`,
zero `verticalVelocity`, and lerp `position.y` toward
`pickedPoint.y + ellipsoid.y` only when
`yDifference > minCorrection && yDifference < maxCorrection`
(`minCorrection = 0.05 * scaleFactor`, `maxCorrection = 0.5 * scaleFactor`);
otherwise clear `isGrounded`. -/
def groundResolve (p : Player) (scene : List Mesh) (worldIds : List Nat)
    (st : PState) : PState :=
  match findGround p scene worldIds st with
  | some hit =>
      let groundDistance := hit.distance
      let tolerance := p.cfg.groundTolerance * p.scaleFactor
      if groundDistance ≤ tolerance ∧ st.verticalVelocity ≤ 0 then
        let targetY := hit.pointY + ellipsoidY p
        let currentY := st.pos.y
        let yDifference := |targetY - currentY|
        let minCorrection := 0.05 * p.scaleFactor
        let maxCorrection := 0.5 * p.scaleFactor
        let newY :=
          if minCorrection < yDifference ∧ yDifference < maxCorrection then
            lerp currentY targetY p.cfg.smoothingFactor
          else currentY
        { st with isGrounded := true, verticalVelocity := 0,
                  pos := { st.pos with y := newY } }
      else { st with isGrounded := false }
  | none => { st with isGrounded := false }

/-- `Player.updateNormalMode(inputMap, horizontalMove, worldMeshes, deltaTime)`:
enable collisions, resolve ground on the pre-movement position, apply gravity
only when airborne, apply the jump impulse when the jump key is down and the
player is grounded, then submit
`(horizontalMove.x, verticalVelocity * deltaTime, horizontalMove.z)` to the
engine's `mesh.moveWithCollisions` (abstracted as `mover`). -/
def updateNormalMode (p : Player) (mover : V3 → V3 → V3) (inp : Input)
    (hmX hmZ : ℚ) (scene : List Mesh) (worldIds : List Nat) (dt : ℚ)
    (st : PState) : PState :=
  let st0 := { st with checkCollisions := true }
  let st1 := groundResolve p scene worldIds st0
  let st2 :=
    if st1.isGrounded then st1
    else { st1 with verticalVelocity := st1.verticalVelocity + gravity p * dt }
  let st3 :=
    if inp.jump && st2.isGrounded then
      { st2 with verticalVelocity := jumpForce p, isGrounded := false }
    else st2
  { st3 with pos := mover st3.pos ⟨hmX, st3.verticalVelocity * dt, hmZ⟩ }

/-- `Player.updateFlyMode(inputMap, horizontalMove, deltaTime)`: disable
collisions, move straight up/down at `playerSpeed` on jump/crouch, add the
fly move to the position directly, and set `verticalVelocity = 0`. -/
def updateFlyMode (p : Player) (inp : Input) (hmX hmZ dt : ℚ)
    (st : PState) : PState :=
  let verticalMove : ℚ :=
    if inp.jump then playerSpeed p * dt
    else if inp.crouch then -(playerSpeed p) * dt
    else 0
  { st with checkCollisions := false,
            pos := ⟨st.pos.x + hmX, st.pos.y + verticalMove, st.pos.z + hmZ⟩,
            verticalVelocity := 0 }

/-- The raw movement-intent sum in `Player.update`: starting from
`Vector3.Zero()`, add the horizontal camera `forward` for the forward key,
subtract it for backward, subtract/add the horizontal camera `right` for
left/right. Only the (x, z) components are carried (the basis vectors have
their y component zeroed). -/
def moveDirection (inp : Input) (fwd rgt : ℚ × ℚ) : ℚ × ℚ :=
  let d : ℚ × ℚ := (0, 0)
  let d := if inp.forward then (d.1 + fwd.1, d.2 + fwd.2) else d
  let d := if inp.backward then (d.1 - fwd.1, d.2 - fwd.2) else d
  let d := if inp.left then (d.1 - rgt.1, d.2 - rgt.2) else d
  let d := if inp.right then (d.1 + rgt.1, d.2 + rgt.2) else d
  d

/-- The horizontal displacement computed by `Player.update`:
`moveDirection.normalize()` when `lengthSquared() > 0`, then
`moveDirection.scale(speed * deltaTime)` with the speed doubled under the run
modifier. Normalization (division by the euclidean length) is embedded by the
explicit argument `dirLen`, constrained in the theorems by
`dirLen > 0 ∧ dirLen ^ 2 = d.1 ^ 2 + d.2 ^ 2`. -/
def horizontalMove (p : Player) (inp : Input) (fwd rgt : ℚ × ℚ)
    (dirLen dt : ℚ) : ℚ × ℚ :=
  let d := moveDirection inp fwd rgt
  let dir := if 0 < d.1 ^ 2 + d.2 ^ 2 then (d.1 / dirLen, d.2 / dirLen) else d
  let speed := if inp.run then playerSpeed p * 2 else playerSpeed p
  (dir.1 * (speed * dt), dir.2 * (speed * dt))

/-- `Player.update(inputMap, camera, worldMeshes, deltaTime, flyMode)`:
set `isMoving` from the raw intent sum, compute the horizontal move, then
dispatch to `updateFlyMode` or `updateNormalMode`. `fwd`/`rgt` are the
already-projected-and-normalized horizontal camera basis vectors (the locals
`forward`/`right`); the final `this.position.copyFrom(this.mesh.position)` is
implicit since the embedding keeps a single position. -/
def update (p : Player) (mover : V3 → V3 → V3) (inp : Input)
    (fwd rgt : ℚ × ℚ) (dirLen : ℚ) (scene : List Mesh) (worldIds : List Nat)
    (dt : ℚ) (flyMode : Bool) (st : PState) : PState :=
  let d := moveDirection inp fwd rgt
  let st0 := { st with isMoving := decide (0 < d.1 ^ 2 + d.2 ^ 2) }
  let hm := horizontalMove p inp fwd rgt dirLen dt
  if flyMode then updateFlyMode p inp hm.1 hm.2 dt st0
  else updateNormalMode p mover inp hm.1 hm.2 scene worldIds dt st0

/-- `Player.getIsGrounded()`. -/
def getIsGrounded (st : PState) : Bool := st.isGrounded

/-- The spawn-placement ray length: `2000 * this.scaleFactor`. -/
def spawnRayLength (p : Player) : ℚ := 2000 * p.scaleFactor

/-- The ray filter predicate of `placeOnGround`:
`worldMeshes.includes(mesh) && mesh.checkCollisions`. -/
def placeOnGroundPred (worldIds : List Nat) (m : Mesh) : Bool :=
  worldIds.contains m.id && m.checkCollisions

/-- `Player.placeOnGround(worldMeshes)`: with no world meshes, place at the
fallback `(-16, 2, 51)` with `verticalVelocity = 0`; otherwise cast a single
downward ray from `(-16, 1000 * scaleFactor, 51)` of length
`2000 * scaleFactor`; on a hit place at
`pickedPoint + (0, ellipsoid.y + 1, 0)`, on a miss fall back — in all three
cases `verticalVelocity = 0` and no exception. -/
def placeOnGround (p : Player) (scene : List Mesh) (worldIds : List Nat)
    (st : PState) : PState :=
  if worldIds = [] then
    { st with pos := ⟨-16, 2, 51⟩, verticalVelocity := 0 }
  else
    match pickWithRay scene (placeOnGroundPred worldIds)
        (-16) (1000 * p.scaleFactor) 51 (spawnRayLength p) with
    | some hit =>
        { st with pos := ⟨hit.pointX, hit.pointY + (ellipsoidY p + 1), hit.pointZ⟩,
                  verticalVelocity := 0 }
    | none => { st with pos := ⟨-16, 2, 51⟩, verticalVelocity := 0 }

/-- A representative configuration for concrete instances: the repository's
defaults give `player.speed = 0.3`, `player.jumpForce = 0.2`,
`physics.gravity = -9.81`; the ground tolerance and smoothing factor are
supplied by the configuration collaborator. -/
def testConfig : Config :=
  { speed := 0.3, jumpForce := 0.2, gravity := -9.81,
    groundTolerance := 1, smoothingFactor := 0.5 }

/-- The player as the game constructs it: `scaleFactor = 10`. -/
def testPlayer : Player := { scaleFactor := 10, playerId := 1, cfg := testConfig }

/-- A flat collidable ground mesh at height `y = 0` everywhere. -/
def groundMesh : Mesh :=
  { id := 2, name := "ground", checkCollisions := true,
    surfaceYs := fun _ _ => [0] }

/-- An unobstructed `moveWithCollisions`: plain translation. -/
def freeMover : V3 → V3 → V3 :=
  fun pos d => ⟨pos.x + d.x, pos.y + d.y, pos.z + d.z⟩

/-- The all-keys-up input snapshot. -/
def idleInput : Input :=
  { forward := false, backward := false, left := false, right := false,
    jump := false, crouch := false, run := false }

/-- The player standing at equilibrium on the flat ground: feet ray origin at
`y = 0.6804 - 0.6804 = 0`, surface at `y = 0`. -/
def restState : PState :=
  { pos := ⟨0, 0.6804, 0⟩, verticalVelocity := 0, isGrounded := true,
    isMoving := false, checkCollisions := true }

section Lemmas

/-- `pickBest (some b) l` always yields a hit: the first one among `b` and the
members of `l` of minimal distance. -/
lemma pickBest_some_spec (l : List Hit) : ∀ b : Hit,
    ∃ h, pickBest (some b) l = some h ∧ (h = b ∨ h ∈ l) ∧
      h.distance ≤ b.distance ∧ ∀ h2 ∈ l, h.distance ≤ h2.distance := by
  induction l with
  | nil =>
      intro b
      exact ⟨b, rfl, Or.inl rfl, le_refl _, by simp⟩
  | cons a t ih =>
      intro b
      by_cases hlt : a.distance < b.distance
      · obtain ⟨h, hEq, hMem, hLe, hAll⟩ := ih a
        refine ⟨h, ?_, ?_, ?_, ?_⟩
        · simpa [pickBest, if_pos hlt] using hEq
        · rcases hMem with rfl | hm
          · exact Or.inr (List.mem_cons_self _ _)
          · exact Or.inr (List.mem_cons_of_mem _ hm)
        · exact hLe.trans (le_of_lt hlt)
        · intro h2 hh2
          rcases List.mem_cons.mp hh2 with rfl | hm
          · exact hLe
          · exact hAll h2 hm
      · obtain ⟨h, hEq, hMem, hLe, hAll⟩ := ih b
        refine ⟨h, ?_, ?_, ?_, ?_⟩
        · simpa [pickBest, if_neg hlt] using hEq
        · rcases hMem with rfl | hm
          · exact Or.inl rfl
          · exact Or.inr (List.mem_cons_of_mem _ hm)
        · exact hLe
        · intro h2 hh2
          rcases List.mem_cons.mp hh2 with rfl | hm
          · exact hLe.trans (le_of_not_lt hlt)
          · exact hAll h2 hm

/-- A hit returned by `pickBest none` is a member of the candidate list of
minimal distance. -/
lemma pickBest_none_some (l : List Hit) (h : Hit)
    (hEq : pickBest none l = some h) :
    h ∈ l ∧ ∀ h2 ∈ l, h.distance ≤ h2.distance := by
  cases l with
  | nil => simp [pickBest] at hEq
  | cons a t =>
      obtain ⟨h0, hEq0, hMem, hLe, hAll⟩ := pickBest_some_spec t a
      have hstep : pickBest none (a :: t) = pickBest (some a) t := by
        simp [pickBest]
      rw [hstep, hEq0] at hEq
      obtain rfl : h0 = h := by injection hEq
      constructor
      · rcases hMem with rfl | hm
        · exact List.mem_cons_self _ _
        · exact List.mem_cons_of_mem _ hm
      · intro h2 hh2
        rcases List.mem_cons.mp hh2 with rfl | hm
        · exact hLe
        · exact hAll h2 hm

/-- `pickBest none` returns `none` exactly on the empty candidate list. -/
lemma pickBest_none_eq_none_iff (l : List Hit) :
    pickBest none l = none ↔ l = [] := by
  cases l with
  | nil => simp [pickBest]
  | cons a t =>
      obtain ⟨h0, hEq0, _, _, _⟩ := pickBest_some_spec t a
      have hstep : pickBest none (a :: t) = pickBest (some a) t := by
        simp [pickBest]
      simp [hstep, hEq0]

/-- Every candidate of a ray cast satisfies the filter predicate and records
its distance as the drop from the ray origin to the picked point. -/
lemma mem_rayCandidates (scene : List Mesh) (pred : Mesh → Bool)
    (ox oy oz len : ℚ) (h : Hit)
    (hm : h ∈ rayCandidates scene pred ox oy oz len) :
    pred h.mesh = true := by
  unfold rayCandidates at hm
  rw [List.mem_flatMap] at hm
  obtain ⟨m, hmem, hin⟩ := hm
  rw [List.mem_filterMap] at hin
  obtain ⟨y, _, hsome⟩ := hin
  have hpm : pred m = true := (List.mem_filter.mp hmem).2
  by_cases hcond : y ≤ oy ∧ oy - y ≤ len
  · rw [if_pos hcond] at hsome
    obtain rfl : _ = h := by injection hsome
    exact hpm
  · rw [if_neg hcond] at hsome
    exact absurd hsome (by simp)

/-- A hit returned by `pickWithRay` satisfies the filter predicate. -/
lemma pickWithRay_pred (scene : List Mesh) (pred : Mesh → Bool)
    (ox oy oz len : ℚ) (h : Hit)
    (hEq : pickWithRay scene pred ox oy oz len = some h) :
    pred h.mesh = true :=
  mem_rayCandidates scene pred ox oy oz len h
    (pickBest_none_some _ _ hEq).1

/-- A hit returned by `findGround` satisfies the ground filter predicate. -/
lemma findGround_pred (p : Player) (scene : List Mesh) (w : List Nat)
    (st : PState) (hit : Hit)
    (hEq : findGround p scene w st = some hit) :
    findGroundPred p w hit.mesh = true := by
  unfold findGround at hEq
  have hmem := (pickBest_none_some _ _ hEq).1
  rw [List.mem_filterMap] at hmem
  obtain ⟨off, _, hcast⟩ := hmem
  exact pickWithRay_pred _ _ _ _ _ _ _ (by simpa [castGroundRay] using hcast)

/-- When `groundResolve` reports the player grounded, it has zeroed the
vertical velocity in the same step. -/
lemma groundResolve_grounded_vv (p : Player) (scene : List Mesh)
    (w : List Nat) (st : PState)
    (h : (groundResolve p scene w st).isGrounded = true) :
    (groundResolve p scene w st).verticalVelocity = 0 := by
  unfold groundResolve at h ⊢
  cases hfg : findGround p scene w st with
  | none => rw [hfg] at h; simp at h
  | some hit =>
      rw [hfg] at h
      by_cases hc : hit.distance ≤ p.cfg.groundTolerance * p.scaleFactor ∧
          st.verticalVelocity ≤ 0
      · simp only [if_pos hc]
      · simp only [if_neg hc] at h
        simp at h

end Lemmas

/-- A player state directly above the ground but with a vertical gap (9.3196)
inside the ground tolerance (10) yet above the maximal correction band
(0.5 * scaleFactor = 5). -/
def highState : PState :=
  { pos := ⟨0, 10, 0⟩, verticalVelocity := 0, isGrounded := false,
    isMoving := false, checkCollisions := true }

/-- A player state with a vertical gap (1) inside the correction band
(0.5 < 1 < 5). -/
def bandState : PState :=
  { pos := ⟨0, 1.6804, 0⟩, verticalVelocity := 0, isGrounded := false,
    isMoving := false, checkCollisions := true }

/-- The hit the ground probe reports from `bandState`: the central ray, one
unit above the flat ground. -/
def bandHit : Hit :=
  { mesh := groundMesh, distance := 1, pointX := 0, pointY := 0, pointZ := 0 }

/-- Claim C1: for every grounded-mode frame resolution
(`Player.updateNormalMode`), for every input map, surface set and delta-time,
if the frame ends with `grounded == true` then `verticalVelocity == 0`
immediately after that frame's vertical resolution (before the next frame's
gravity accumulation). -/
theorem grounded_implies_vv_zero (p : Player) (mover : V3 → V3 → V3)
    (inp : Input) (hmX hmZ : ℚ) (scene : List Mesh) (w : List Nat) (dt : ℚ)
    (st : PState)
    (h : (updateNormalMode p mover inp hmX hmZ scene w dt st).isGrounded = true) :
    (updateNormalMode p mover inp hmX hmZ scene w dt st).verticalVelocity = 0 := by
  have hg := groundResolve_grounded_vv p scene w { st with checkCollisions := true }
  simp only [updateNormalMode] at h ⊢
  by_cases h1 : (groundResolve p scene w { st with checkCollisions := true }).isGrounded = true
  · by_cases hj : inp.jump = true
    · simp [h1, hj] at h
    · simp [h1, hj]
      exact hg h1
  · simp [h1] at h

/-- Witness for C1 at a concrete input: resting on the flat ground with no
input, the frame ends grounded and with zero vertical velocity. -/
theorem grounded_implies_vv_zero_witness :
    (updateNormalMode testPlayer freeMover idleInput 0 0 [groundMesh] [2]
      (1/60) restState).isGrounded = true ∧
    (updateNormalMode testPlayer freeMover idleInput 0 0 [groundMesh] [2]
      (1/60) restState).verticalVelocity = 0 := by
  have hg : (updateNormalMode testPlayer freeMover idleInput 0 0 [groundMesh] [2]
      (1/60) restState).isGrounded = true := by
    simp only [updateNormalMode, groundResolve, findGround, groundRayOffsets,
      castGroundRay, pickWithRay, rayCandidates, findGroundPred, ellipsoidY,
      groundRayLength, lerp, gravity, jumpForce, testPlayer, testConfig,
      groundMesh, restState, idleInput, freeMover,
      List.filterMap_cons, List.filter_cons, List.flatMap_cons,
      List.filterMap_nil, List.filter_nil, List.flatMap_nil]
    norm_num [pickBest, abs_of_nonneg, abs_of_nonpos, List.filterMap_cons,
      List.filter_cons, List.flatMap_cons, List.filterMap_nil, List.filter_nil,
      List.flatMap_nil]
  exact ⟨hg, grounded_implies_vv_zero testPlayer freeMover idleInput 0 0
    [groundMesh] [2] (1/60) restState hg⟩

/-- Claim C2 counterexample: at a concrete grounded transition (ground hit
found at distance 9.3196 ≤ tolerance 10, `verticalVelocity ≤ 0`) whose
correction magnitude 9.3196 exceeds the maximum threshold 5, the correction
is discarded (`position.y` is left unchanged), not clamped as the claim
states. -/
theorem overband_correction_dropped :
    (findGround testPlayer [groundMesh] [2] highState).map
      (fun h => h.distance) = some 9.3196 ∧
    (findGround testPlayer [groundMesh] [2] highState).map
      (fun h => h.pointY) = some 0 ∧
    (9.3196 : ℚ) ≤ testPlayer.cfg.groundTolerance * testPlayer.scaleFactor ∧
    highState.verticalVelocity ≤ 0 ∧
    |(0 + ellipsoidY testPlayer) - highState.pos.y| > 0.5 * testPlayer.scaleFactor ∧
    (groundResolve testPlayer [groundMesh] [2] highState).isGrounded = true ∧
    (groundResolve testPlayer [groundMesh] [2] highState).pos.y = highState.pos.y := by
  simp only [groundResolve, findGround, groundRayOffsets, castGroundRay,
    pickWithRay, rayCandidates, findGroundPred, ellipsoidY, groundRayLength,
    lerp, testPlayer, testConfig, groundMesh, highState,
    List.filterMap_cons, List.filter_cons, List.flatMap_cons,
    List.filterMap_nil, List.filter_nil, List.flatMap_nil]
  norm_num [pickBest, abs_of_nonneg, abs_of_nonpos, List.filterMap_cons,
    List.filter_cons, List.flatMap_cons, List.filterMap_nil, List.filter_nil,
    List.flatMap_nil]

/-- Claim C2 (amended): in the grounded transition (ground hit found, hit
distance ≤ tolerance, `verticalVelocity ≤ 0`), `verticalVelocity` is set to 0
and `position.y` is smoothly interpolated toward `hitY + envelope.y` only when
the correction magnitude lies strictly inside the band
`(0.05 * scaleFactor, 0.5 * scaleFactor)`; corrections outside the band —
below the minimum **or above the maximum** — are discarded (`position.y` is
left unchanged). -/
theorem groundResolve_correction_band (p : Player) (scene : List Mesh)
    (w : List Nat) (st : PState) (hit : Hit)
    (hfind : findGround p scene w st = some hit)
    (htol : hit.distance ≤ p.cfg.groundTolerance * p.scaleFactor)
    (hvv : st.verticalVelocity ≤ 0) :
    (groundResolve p scene w st).isGrounded = true ∧
    (groundResolve p scene w st).verticalVelocity = 0 ∧
    ((0.05 * p.scaleFactor < |hit.pointY + ellipsoidY p - st.pos.y| ∧
      |hit.pointY + ellipsoidY p - st.pos.y| < 0.5 * p.scaleFactor) →
      (groundResolve p scene w st).pos.y =
        lerp st.pos.y (hit.pointY + ellipsoidY p) p.cfg.smoothingFactor) ∧
    (¬(0.05 * p.scaleFactor < |hit.pointY + ellipsoidY p - st.pos.y| ∧
       |hit.pointY + ellipsoidY p - st.pos.y| < 0.5 * p.scaleFactor) →
      (groundResolve p scene w st).pos.y = st.pos.y) := by
  have hcond : hit.distance ≤ p.cfg.groundTolerance * p.scaleFactor ∧
      st.verticalVelocity ≤ 0 := ⟨htol, hvv⟩
  simp only [groundResolve, hfind, if_pos hcond]
  refine ⟨trivial, trivial, fun hband => ?_, fun hband => ?_⟩
  · simp only [if_pos hband]
  · simp only [if_neg hband]

/-- Witness for C2 (amended) at a concrete input: standing 1 above the rest
height, the grounded transition fires and the in-band correction is lerped. -/
theorem groundResolve_correction_band_witness :
    findGround testPlayer [groundMesh] [2] bandState = some bandHit ∧
    ((groundResolve testPlayer [groundMesh] [2] bandState).isGrounded = true ∧
     (groundResolve testPlayer [groundMesh] [2] bandState).verticalVelocity = 0 ∧
     ((0.05 * testPlayer.scaleFactor <
        |bandHit.pointY + ellipsoidY testPlayer - bandState.pos.y| ∧
       |bandHit.pointY + ellipsoidY testPlayer - bandState.pos.y| <
        0.5 * testPlayer.scaleFactor) →
       (groundResolve testPlayer [groundMesh] [2] bandState).pos.y =
         lerp bandState.pos.y (bandHit.pointY + ellipsoidY testPlayer)
           testPlayer.cfg.smoothingFactor) ∧
     (¬(0.05 * testPlayer.scaleFactor <
        |bandHit.pointY + ellipsoidY testPlayer - bandState.pos.y| ∧
       |bandHit.pointY + ellipsoidY testPlayer - bandState.pos.y| <
        0.5 * testPlayer.scaleFactor) →
       (groundResolve testPlayer [groundMesh] [2] bandState).pos.y =
         bandState.pos.y)) := by
  have hf : findGround testPlayer [groundMesh] [2] bandState = some bandHit := by
    simp only [findGround, groundRayOffsets, castGroundRay, pickWithRay,
      rayCandidates, findGroundPred, ellipsoidY, groundRayLength, testPlayer,
      testConfig, groundMesh, bandState, bandHit,
      List.filterMap_cons, List.filter_cons, List.flatMap_cons,
      List.filterMap_nil, List.filter_nil, List.flatMap_nil]
    norm_num [pickBest, List.filterMap_cons, List.filter_cons,
      List.flatMap_cons, List.filterMap_nil, List.filter_nil, List.flatMap_nil]
  have htol : bandHit.distance ≤
      testPlayer.cfg.groundTolerance * testPlayer.scaleFactor := by
    norm_num [testPlayer, testConfig, bandHit]
  have hvv : bandState.verticalVelocity ≤ 0 := by norm_num [bandState]
  exact ⟨hf, groundResolve_correction_band testPlayer [groundMesh] [2]
    bandState bandHit hf htol hvv⟩

/-- The hit the ground probe reports from `restState`: the central ray at
distance 0. -/
def restHit : Hit :=
  { mesh := groundMesh, distance := 0, pointX := 0, pointY := 0, pointZ := 0 }

/-- Claim C3 counterexample: at the game's construction (`scaleFactor = 10`)
the four corner rays are offset by the fixed `0.05 * scaleFactor = 1/2`,
which is neither half the horizontal envelope extent
(`ellipsoid.x / 2 = 0.2835`) nor the horizontal envelope half-extent itself
(`ellipsoid.x = 0.567`). -/
theorem cornerOffsets_not_half_envelope :
    groundRayOffsets testPlayer =
      [(0, 0), (1/2, 1/2), (-(1/2), 1/2), (1/2, -(1/2)), (-(1/2), -(1/2))] ∧
    (1/2 : ℚ) ≠ ellipsoidX testPlayer / 2 ∧
    (1/2 : ℚ) ≠ ellipsoidX testPlayer ∧
    (1/2 : ℚ) ≠ ellipsoidZ testPlayer / 2 ∧
    (1/2 : ℚ) ≠ ellipsoidZ testPlayer := by
  norm_num [groundRayOffsets, ellipsoidX, ellipsoidZ, testPlayer, testConfig]

/-- Claim C3 (amended): `findGround` casts exactly five downward rays — one
through the body's vertical centerline offset to the bottom of the envelope
and four offset by the fixed `±0.05 * scaleFactor` in X and Z (not by half
the horizontal envelope extent) — and among all rays that report a hit it
returns the hit with the smallest distance; if no ray hits, it returns an
empty result. -/
theorem findGround_five_ray_min (p : Player) (scene : List Mesh)
    (w : List Nat) (st : PState) :
    (groundRayOffsets p).length = 5 ∧
    groundRayOffsets p =
      [(0, 0),
       (0.05 * p.scaleFactor, 0.05 * p.scaleFactor),
       (-(0.05 * p.scaleFactor), 0.05 * p.scaleFactor),
       (0.05 * p.scaleFactor, -(0.05 * p.scaleFactor)),
       (-(0.05 * p.scaleFactor), -(0.05 * p.scaleFactor))] ∧
    (findGround p scene w st = none ↔
      (groundRayOffsets p).filterMap (castGroundRay p scene w st) = []) ∧
    ∀ hit, findGround p scene w st = some hit →
      hit ∈ (groundRayOffsets p).filterMap (castGroundRay p scene w st) ∧
      ∀ h2 ∈ (groundRayOffsets p).filterMap (castGroundRay p scene w st),
        hit.distance ≤ h2.distance := by
  refine ⟨rfl, rfl, ?_, ?_⟩
  · unfold findGround
    exact pickBest_none_eq_none_iff _
  · intro hit h
    unfold findGround at h
    exact pickBest_none_some _ _ h

/-- Witness for C3 (amended) at a concrete input: from the rest state on flat
ground the probe returns the central-ray hit, which is of minimal distance
among the five ray results. -/
theorem findGround_five_ray_min_witness :
    findGround testPlayer [groundMesh] [2] restState = some restHit ∧
    (restHit ∈ (groundRayOffsets testPlayer).filterMap
        (castGroundRay testPlayer [groundMesh] [2] restState) ∧
     ∀ h2 ∈ (groundRayOffsets testPlayer).filterMap
        (castGroundRay testPlayer [groundMesh] [2] restState),
        restHit.distance ≤ h2.distance) := by
  have hf : findGround testPlayer [groundMesh] [2] restState = some restHit := by
    simp only [findGround, groundRayOffsets, castGroundRay, pickWithRay,
      rayCandidates, findGroundPred, ellipsoidY, groundRayLength, testPlayer,
      testConfig, groundMesh, restState, restHit,
      List.filterMap_cons, List.filter_cons, List.flatMap_cons,
      List.filterMap_nil, List.filter_nil, List.flatMap_nil]
    norm_num [pickBest, List.filterMap_cons, List.filter_cons,
      List.flatMap_cons, List.filterMap_nil, List.filter_nil, List.flatMap_nil]
  exact ⟨hf, (findGround_five_ray_min testPlayer [groundMesh] [2]
    restState).2.2.2 restHit hf⟩

/-- The sky enclosure as built by the scene setup: a box named "skyBox" with
`checkCollisions` enabled. -/
def skyMesh : Mesh :=
  { id := 5, name := "skyBox", checkCollisions := true,
    surfaceYs := fun _ _ => [0] }

/-- The same mesh under a different name: identical identity, flags and
geometry. -/
def renamedSkyMesh : Mesh :=
  { id := 5, name := "sky2", checkCollisions := true,
    surfaceYs := fun _ _ => [0] }

/-- Claim C4 counterexample: with an absent world-mesh list, two meshes that
agree on identity (`id`), on the collision flag and on geometry, and differ
only in the name string, are treated differently by the ground probe — the
one named "skyBox" is excluded, the other is hit. The decorative-geometry
exclusion is therefore done by name string matching, not by identity/flag as
the claim states. -/
theorem sky_exclusion_by_name :
    (findGround testPlayer [skyMesh] [] restState).isSome = false ∧
    (findGround testPlayer [renamedSkyMesh] [] restState).isSome = true ∧
    skyMesh.id = renamedSkyMesh.id ∧
    skyMesh.checkCollisions = renamedSkyMesh.checkCollisions ∧
    skyMesh.surfaceYs = renamedSkyMesh.surfaceYs := by
  simp only [findGround, groundRayOffsets, castGroundRay, pickWithRay,
    rayCandidates, findGroundPred, ellipsoidY, groundRayLength, testPlayer,
    testConfig, skyMesh, renamedSkyMesh, restState,
    List.filterMap_cons, List.filter_cons, List.flatMap_cons,
    List.filterMap_nil, List.filter_nil, List.flatMap_nil]
  norm_num [pickBest, List.filterMap_cons, List.filter_cons,
    List.flatMap_cons, List.filterMap_nil, List.filter_nil, List.flatMap_nil]

/-- Claim C4 (amended): every hit returned by the ground probe is against a
mesh that (a) has `checkCollisions` set and (b) is not the character's own
body; with a non-empty world list the mesh must belong to that list, and only
with an absent/empty world list is the sky enclosure excluded — by its name
string equalling "skyBox". -/
theorem findGround_hit_flags (p : Player) (scene : List Mesh) (w : List Nat)
    (st : PState) (hit : Hit)
    (h : findGround p scene w st = some hit) :
    hit.mesh.checkCollisions = true ∧ hit.mesh.id ≠ p.playerId ∧
    (w ≠ [] → w.contains hit.mesh.id = true) ∧
    (w = [] → hit.mesh.name ≠ "skyBox") := by
  have hp := findGround_pred p scene w st hit h
  unfold findGroundPred at hp
  by_cases hw : w = []
  · simp only [hw, ne_eq, not_true_eq_false, if_false, reduceIte,
      Bool.and_eq_true, decide_eq_true_eq] at hp
    exact ⟨hp.1.1, hp.1.2, fun hne => absurd hw hne, fun _ => hp.2⟩
  · simp only [hw, ne_eq, not_false_eq_true, if_true, reduceIte,
      Bool.and_eq_true, decide_eq_true_eq] at hp
    exact ⟨hp.1.2, hp.2, fun _ => hp.1.1, fun heq => absurd heq hw⟩

/-- Witness for C4 (amended) at a concrete input: the rest-state probe hit
satisfies the filter facts. -/
theorem findGround_hit_flags_witness :
    findGround testPlayer [groundMesh] [2] restState = some restHit ∧
    (restHit.mesh.checkCollisions = true ∧
     restHit.mesh.id ≠ testPlayer.playerId ∧
     (([2] : List Nat) ≠ [] → List.contains [2] restHit.mesh.id = true) ∧
     (([2] : List Nat) = [] → restHit.mesh.name ≠ "skyBox")) := by
  have hf : findGround testPlayer [groundMesh] [2] restState = some restHit := by
    simp only [findGround, groundRayOffsets, castGroundRay, pickWithRay,
      rayCandidates, findGroundPred, ellipsoidY, groundRayLength, testPlayer,
      testConfig, groundMesh, restState, restHit,
      List.filterMap_cons, List.filter_cons, List.flatMap_cons,
      List.filterMap_nil, List.filter_nil, List.flatMap_nil]
    norm_num [pickBest, List.filterMap_cons, List.filter_cons,
      List.flatMap_cons, List.filterMap_nil, List.filter_nil, List.flatMap_nil]
  exact ⟨hf, findGround_hit_flags testPlayer [groundMesh] [2] restState
    restHit hf⟩

/-- The hit the spawn ray reports over the flat ground: origin
`(-16, 10000, 51)`, surface at `y = 0`. -/
def spawnHit : Hit :=
  { mesh := groundMesh, distance := 10000, pointX := -16, pointY := 0,
    pointZ := 51 }

/-- Claim C5 counterexample: with the flat ground hit at `y = 0`, the spawn
placement puts the character at `hitY + envelope.y + 1`, not exactly at
`hitY + envelope.y` as the claim states. -/
theorem placeOnGround_adds_one :
    (pickWithRay [groundMesh] (placeOnGroundPred [2]) (-16)
        (1000 * testPlayer.scaleFactor) 51 (spawnRayLength testPlayer)).map
      (fun h => h.pointY) = some 0 ∧
    (placeOnGround testPlayer [groundMesh] [2] restState).pos.y =
      0 + ellipsoidY testPlayer + 1 ∧
    (placeOnGround testPlayer [groundMesh] [2] restState).pos.y ≠
      0 + ellipsoidY testPlayer := by
  simp only [placeOnGround, placeOnGroundPred, spawnRayLength, pickWithRay,
    rayCandidates, ellipsoidY, testPlayer, testConfig, groundMesh, restState,
    List.filterMap_cons, List.filter_cons, List.flatMap_cons,
    List.filterMap_nil, List.filter_nil, List.flatMap_nil]
  norm_num [pickBest, List.filterMap_cons, List.filter_cons,
    List.flatMap_cons, List.filterMap_nil, List.filter_nil, List.flatMap_nil]

/-- Claim C5 (amended): the spawn placement casts a single long downward ray
from `(-16, 1000 * scaleFactor, 51)`; on a hit it places the character at
`hitY + envelope.y + 1` with `verticalVelocity = 0`; on a miss, or when the
collidable mesh list is empty, it places the character at the configured
fallback `(-16, 2, 51)` with `verticalVelocity = 0`. The operation is a total
function — it cannot throw. -/
theorem placeOnGround_spec (p : Player) (scene : List Mesh) (w : List Nat)
    (st : PState) :
    (w = [] → placeOnGround p scene w st =
      { st with pos := ⟨-16, 2, 51⟩, verticalVelocity := 0 }) ∧
    (∀ hit, w ≠ [] →
      pickWithRay scene (placeOnGroundPred w) (-16) (1000 * p.scaleFactor) 51
        (spawnRayLength p) = some hit →
      placeOnGround p scene w st =
        { st with
            pos := ⟨hit.pointX, hit.pointY + (ellipsoidY p + 1), hit.pointZ⟩,
            verticalVelocity := 0 }) ∧
    (w ≠ [] →
      pickWithRay scene (placeOnGroundPred w) (-16) (1000 * p.scaleFactor) 51
        (spawnRayLength p) = none →
      placeOnGround p scene w st =
        { st with pos := ⟨-16, 2, 51⟩, verticalVelocity := 0 }) := by
  refine ⟨?_, ?_, ?_⟩
  · intro hw
    unfold placeOnGround
    rw [if_pos hw]
  · intro hit hw hpick
    unfold placeOnGround
    rw [if_neg hw, hpick]
  · intro hw hpick
    unfold placeOnGround
    rw [if_neg hw, hpick]

/-- Witness for C5 (amended) at a concrete input: over the flat ground the
spawn ray hits at `y = 0` and the character is placed at
`(−16, envelope.y + 1, 51)` with zero vertical velocity. -/
theorem placeOnGround_spec_witness :
    ([2] : List Nat) ≠ [] ∧
    pickWithRay [groundMesh] (placeOnGroundPred [2]) (-16)
      (1000 * testPlayer.scaleFactor) 51 (spawnRayLength testPlayer) =
      some spawnHit ∧
    placeOnGround testPlayer [groundMesh] [2] restState =
      { restState with
          pos := ⟨spawnHit.pointX,
                  spawnHit.pointY + (ellipsoidY testPlayer + 1),
                  spawnHit.pointZ⟩,
          verticalVelocity := 0 } := by
  have hne : ([2] : List Nat) ≠ [] := by simp
  have hp : pickWithRay [groundMesh] (placeOnGroundPred [2]) (-16)
      (1000 * testPlayer.scaleFactor) 51 (spawnRayLength testPlayer) =
      some spawnHit := by
    simp only [placeOnGroundPred, spawnRayLength, pickWithRay, rayCandidates,
      testPlayer, testConfig, groundMesh, spawnHit,
      List.filterMap_cons, List.filter_cons, List.flatMap_cons,
      List.filterMap_nil, List.filter_nil, List.flatMap_nil]
    norm_num [pickBest, List.filterMap_cons, List.filter_cons,
      List.flatMap_cons, List.filterMap_nil, List.filter_nil, List.flatMap_nil]
  exact ⟨hne, hp, (placeOnGround_spec testPlayer [groundMesh] [2]
    restState).2.1 spawnHit hne hp⟩

/-- A player state too far above the ground for the 20-unit probe rays:
origin `30 - 0.6804 = 29.3196 > 20` above the surface. -/
def airState : PState :=
  { pos := ⟨0, 30, 0⟩, verticalVelocity := 0, isGrounded := true,
    isMoving := false, checkCollisions := true }

/-- Claim C6: asserting jump input while the frame's resolved grounded state
is false produces no velocity change attributable to the jump (the frame with
jump asserted ends with the same `verticalVelocity` as the frame without);
asserting it while grounded sets `verticalVelocity` to exactly the configured
jump impulse (`jumpForce = cfg.jumpForce * scaleFactor`) and flips `grounded`
to false on the same frame. -/
theorem jump_from_grounded_only (p : Player) (mover : V3 → V3 → V3)
    (inp : Input) (hmX hmZ : ℚ) (scene : List Mesh) (w : List Nat) (dt : ℚ)
    (st : PState) :
    ((groundResolve p scene w { st with checkCollisions := true }).isGrounded
        = false →
      (updateNormalMode p mover { inp with jump := true } hmX hmZ scene w dt
        st).verticalVelocity =
      (updateNormalMode p mover { inp with jump := false } hmX hmZ scene w dt
        st).verticalVelocity) ∧
    ((groundResolve p scene w { st with checkCollisions := true }).isGrounded
        = true →
      (updateNormalMode p mover { inp with jump := true } hmX hmZ scene w dt
        st).verticalVelocity = jumpForce p ∧
      (updateNormalMode p mover { inp with jump := true } hmX hmZ scene w dt
        st).isGrounded = false) := by
  constructor
  · intro h1
    simp only [updateNormalMode]
    simp [h1]
  · intro h1
    simp only [updateNormalMode]
    simp [h1]

/-- Witness for C6 at concrete inputs: jumping from rest on the ground gives
`verticalVelocity = jumpForce` and clears `grounded`; jumping while airborne
(30 above the ground, out of probe reach) leaves `verticalVelocity` exactly
as in the jump-free frame. -/
theorem jump_from_grounded_only_witness :
    (groundResolve testPlayer [groundMesh] [2]
      { restState with checkCollisions := true }).isGrounded = true ∧
    ((updateNormalMode testPlayer freeMover { idleInput with jump := true }
        0 0 [groundMesh] [2] (1/60) restState).verticalVelocity =
      jumpForce testPlayer ∧
     (updateNormalMode testPlayer freeMover { idleInput with jump := true }
        0 0 [groundMesh] [2] (1/60) restState).isGrounded = false) ∧
    (groundResolve testPlayer [groundMesh] [2]
      { airState with checkCollisions := true }).isGrounded = false ∧
    (updateNormalMode testPlayer freeMover { idleInput with jump := true }
        0 0 [groundMesh] [2] (1/60) airState).verticalVelocity =
    (updateNormalMode testPlayer freeMover { idleInput with jump := false }
        0 0 [groundMesh] [2] (1/60) airState).verticalVelocity := by
  have hg : (groundResolve testPlayer [groundMesh] [2]
      { restState with checkCollisions := true }).isGrounded = true := by
    simp only [groundResolve, findGround, groundRayOffsets, castGroundRay,
      pickWithRay, rayCandidates, findGroundPred, ellipsoidY, groundRayLength,
      lerp, testPlayer, testConfig, groundMesh, restState,
      List.filterMap_cons, List.filter_cons, List.flatMap_cons,
      List.filterMap_nil, List.filter_nil, List.flatMap_nil]
    norm_num [pickBest, abs_of_nonneg, abs_of_nonpos, List.filterMap_cons,
      List.filter_cons, List.flatMap_cons, List.filterMap_nil, List.filter_nil,
      List.flatMap_nil]
  have ha : (groundResolve testPlayer [groundMesh] [2]
      { airState with checkCollisions := true }).isGrounded = false := by
    simp only [groundResolve, findGround, groundRayOffsets, castGroundRay,
      pickWithRay, rayCandidates, findGroundPred, ellipsoidY, groundRayLength,
      lerp, testPlayer, testConfig, groundMesh, airState,
      List.filterMap_cons, List.filter_cons, List.flatMap_cons,
      List.filterMap_nil, List.filter_nil, List.flatMap_nil]
    norm_num [pickBest, abs_of_nonneg, abs_of_nonpos, List.filterMap_cons,
      List.filter_cons, List.flatMap_cons, List.filterMap_nil, List.filter_nil,
      List.flatMap_nil]
  exact ⟨hg, (jump_from_grounded_only testPlayer freeMover idleInput 0 0
      [groundMesh] [2] (1/60) restState).2 hg,
    ha, (jump_from_grounded_only testPlayer freeMover idleInput 0 0
      [groundMesh] [2] (1/60) airState).1 ha⟩

/-- A state mid-fall: airborne with a negative vertical velocity. -/
def fallState : PState :=
  { pos := ⟨0, 5, 0⟩, verticalVelocity := -5, isGrounded := false,
    isMoving := false, checkCollisions := true }

/-- The same mid-fall state with the airborne velocity forgotten. -/
def fallStateZero : PState := { fallState with verticalVelocity := 0 }

/-- Claim C7: a fly-mode frame ends with `verticalVelocity = 0`
(`updateFlyMode` writes 0 every frame, so the velocity is 0 both on entering
and on leaving fly mode), and the fly frame's entire result is independent of
the incoming `verticalVelocity`; therefore any grounded-mode frames resuming
after the flight are also independent of it — the pre-toggle airborne
velocity is never resumed. -/
theorem flyMode_velocity_reset (p : Player) (inp : Input) (hmX hmZ dt : ℚ)
    (s1 s2 : PState)
    (hpos : s1.pos = s2.pos) (hgr : s1.isGrounded = s2.isGrounded)
    (hmv : s1.isMoving = s2.isMoving)
    (hcc : s1.checkCollisions = s2.checkCollisions) :
    (updateFlyMode p inp hmX hmZ dt s1).verticalVelocity = 0 ∧
    updateFlyMode p inp hmX hmZ dt s1 = updateFlyMode p inp hmX hmZ dt s2 ∧
    ∀ (mover : V3 → V3 → V3) (inp2 : Input) (h2X h2Z : ℚ)
      (scene : List Mesh) (w : List Nat) (dt2 : ℚ),
      updateNormalMode p mover inp2 h2X h2Z scene w dt2
        (updateFlyMode p inp hmX hmZ dt s1) =
      updateNormalMode p mover inp2 h2X h2Z scene w dt2
        (updateFlyMode p inp hmX hmZ dt s2) := by
  have heq : updateFlyMode p inp hmX hmZ dt s1 =
      updateFlyMode p inp hmX hmZ dt s2 := by
    cases s1
    cases s2
    simp_all [updateFlyMode]
  exact ⟨rfl, heq, fun mover inp2 h2X h2Z scene w dt2 => by rw [heq]⟩

/-- Witness for C7 at a concrete input: a fly frame from mid-fall
(`verticalVelocity = -5`) ends with velocity 0 and coincides with the fly
frame from the same state with velocity 0. -/
theorem flyMode_velocity_reset_witness :
    (updateFlyMode testPlayer idleInput 0 0 (1/60) fallState).verticalVelocity
      = 0 ∧
    updateFlyMode testPlayer idleInput 0 0 (1/60) fallState =
      updateFlyMode testPlayer idleInput 0 0 (1/60) fallStateZero := by
  have h := flyMode_velocity_reset testPlayer idleInput 0 0 (1/60) fallState
    fallStateZero rfl rfl rfl rfl
  exact ⟨h.1, h.2.1⟩

/-- A player constructed at world scale 15 instead of the game's 10. -/
def bigPlayer : Player := { scaleFactor := 15, playerId := 1, cfg := testConfig }

/-- Claim C8 counterexample: the per-frame ground-probe ray length is the
fixed constant 20, so at world scale 15 it is strictly below 20 times the
envelope's vertical half-extent (`20 * 0.06804 * 15 = 20.412`). -/
theorem groundRay_short_at_scale15 :
    groundRayLength < 20 * ellipsoidY bigPlayer ∧
    (0 : ℚ) < bigPlayer.scaleFactor := by
  norm_num [groundRayLength, ellipsoidY, bigPlayer]

/-- Claim C8 (amended): the per-frame ground-probe ray length is the fixed
constant 20, which is at least 20 times the envelope's vertical half-extent
only for world scales up to `25000/1701 ≈ 14.7` (in particular at the game's
scale 10); the spawn-placement ray length is exactly `2000 * scaleFactor`,
i.e. 2000 world-scale units. -/
theorem ray_length_bounds (p : Player)
    (hs : p.scaleFactor ≤ 25000/1701) :
    20 * ellipsoidY p ≤ groundRayLength ∧
    spawnRayLength p = 2000 * p.scaleFactor := by
  constructor
  · unfold ellipsoidY groundRayLength
    norm_num
    linarith
  · rfl

/-- Witness for C8 (amended) at the game's configuration (scale 10). -/
theorem ray_length_bounds_witness :
    testPlayer.scaleFactor ≤ 25000/1701 ∧
    (20 * ellipsoidY testPlayer ≤ groundRayLength ∧
     spawnRayLength testPlayer = 2000 * testPlayer.scaleFactor) := by
  have hs : testPlayer.scaleFactor ≤ 25000/1701 := by norm_num [testPlayer]
  exact ⟨hs, ray_length_bounds testPlayer hs⟩

/-- Claim C9: for every non-zero combined intent vector (in particular
simultaneous forward+left), the squared magnitude of the horizontal
displacement equals `(speed * dt) ^ 2` — the combined direction is normalized
before scaling, so the diagonal displacement is `speed * dt`, not
`speed * dt * sqrt 2`. Normalization is embedded by the explicit length
`dirLen` with `dirLen > 0` and `dirLen ^ 2` equal to the squared norm. -/
theorem diagonal_speed_cap (p : Player) (inp : Input) (fwd rgt : ℚ × ℚ)
    (dirLen dt : ℚ)
    (hne : (moveDirection inp fwd rgt).1 ^ 2 +
      (moveDirection inp fwd rgt).2 ^ 2 ≠ 0)
    (hpos : 0 < dirLen)
    (hlen : dirLen ^ 2 = (moveDirection inp fwd rgt).1 ^ 2 +
      (moveDirection inp fwd rgt).2 ^ 2) :
    (horizontalMove p inp fwd rgt dirLen dt).1 ^ 2 +
      (horizontalMove p inp fwd rgt dirLen dt).2 ^ 2 =
    ((if inp.run then playerSpeed p * 2 else playerSpeed p) * dt) ^ 2 := by
  have hgt : 0 < (moveDirection inp fwd rgt).1 ^ 2 +
      (moveDirection inp fwd rgt).2 ^ 2 :=
    lt_of_le_of_ne (by positivity) (Ne.symm hne)
  have hL : dirLen ≠ 0 := ne_of_gt hpos
  simp only [horizontalMove, if_pos hgt]
  by_cases hr : inp.run = true
  · simp only [if_pos hr]
    field_simp
    linear_combination (-(4 * playerSpeed p ^ 2 * dt ^ 2)) * hlen
  · simp only [if_neg hr]
    field_simp
    linear_combination (-(playerSpeed p ^ 2 * dt ^ 2)) * hlen

/-- The forward+left input snapshot. -/
def fwdLeftInput : Input := { idleInput with forward := true, left := true }

/-- Witness for C9 at a concrete input: forward+left with a camera basis
giving the combined vector `(0, 2)` of length 2. -/
theorem diagonal_speed_cap_witness :
    ((moveDirection fwdLeftInput (0, 1) (0, -1)).1 ^ 2 +
      (moveDirection fwdLeftInput (0, 1) (0, -1)).2 ^ 2 ≠ 0) ∧
    (0 : ℚ) < 2 ∧
    ((2 : ℚ) ^ 2 = (moveDirection fwdLeftInput (0, 1) (0, -1)).1 ^ 2 +
      (moveDirection fwdLeftInput (0, 1) (0, -1)).2 ^ 2) ∧
    ((horizontalMove testPlayer fwdLeftInput (0, 1) (0, -1) 2 (1/60)).1 ^ 2 +
      (horizontalMove testPlayer fwdLeftInput (0, 1) (0, -1) 2 (1/60)).2 ^ 2 =
     ((if fwdLeftInput.run then playerSpeed testPlayer * 2
       else playerSpeed testPlayer) * (1/60)) ^ 2) := by
  have hne : (moveDirection fwdLeftInput (0, 1) (0, -1)).1 ^ 2 +
      (moveDirection fwdLeftInput (0, 1) (0, -1)).2 ^ 2 ≠ 0 := by
    norm_num [moveDirection, fwdLeftInput, idleInput]
  have hpos : (0 : ℚ) < 2 := by norm_num
  have hlen : (2 : ℚ) ^ 2 = (moveDirection fwdLeftInput (0, 1) (0, -1)).1 ^ 2 +
      (moveDirection fwdLeftInput (0, 1) (0, -1)).2 ^ 2 := by
    norm_num [moveDirection, fwdLeftInput, idleInput]
  exact ⟨hne, hpos, hlen, diagonal_speed_cap testPlayer fwdLeftInput (0, 1)
    (0, -1) 2 (1/60) hne hpos hlen⟩

/-- Claim C10: a fly-mode frame resolution never writes the grounded flag —
after any number of fly-mode frames, `getIsGrounded` still returns the value
it had before fly mode was entered, so the public accessor can report a stale
`true` for the entire duration of a flight. -/
theorem flyMode_preserves_grounded (p : Player) (mover : V3 → V3 → V3)
    (inp : Input) (fwd rgt : ℚ × ℚ) (dirLen : ℚ) (scene : List Mesh)
    (w : List Nat) (dt : ℚ) (st : PState) :
    getIsGrounded (update p mover inp fwd rgt dirLen scene w dt true st) =
      getIsGrounded st ∧
    ∀ n : ℕ, getIsGrounded
      ((fun s => update p mover inp fwd rgt dirLen scene w dt true s)^[n] st) =
      getIsGrounded st := by
  have h1 : ∀ s : PState,
      getIsGrounded (update p mover inp fwd rgt dirLen scene w dt true s) =
        getIsGrounded s := by
    intro s
    simp [update, updateFlyMode, getIsGrounded]
  refine ⟨h1 st, fun n => ?_⟩
  induction n with
  | zero => simp
  | succ k ih => rw [Function.iterate_succ_apply', h1, ih]

end RFNew
